import Mathlib

/-!
Verification of the Healthcare Copilot service layer.

Shallow embedding of the Python sources of the repository
(`src/agents/*.py`, `src/services/*.py`, `src/utils/*.py`):

* Python strings are Lean `String`s (sequences of characters); the ASCII
  fragment of `str.lower`/`str.strip`/`str.split` is modelled explicitly.
* Python floats are modelled as rationals `ℚ`; every arithmetic step the
  code performs (`min`, sums, divisions) is mirrored exactly.
* Python dicts produced by JSON parsing are modelled as structures with
  `Option` fields (`dict.get(k)` is the field itself, `dict.get(k, d)` is
  `Option.getD`).
* Fallible operations (code that can raise) return `Except`/`Option`.
* External collaborators (the vector store and the LLM endpoint) are
  boundary inputs: their responses, or the fact that they raised, are
  passed to the embedded functions as explicit arguments.
-/

set_option maxHeartbeats 1000000
set_option maxRecDepth 8000

/- ================= Python string primitives ================= -/

/-- Characters Python's `str.split()`/`str.strip()` treat as whitespace
(ASCII fragment). -/
def pyWhitespace (c : Char) : Bool :=
  c = ' ' || c = '\t' || c = '\n' || c = '\r' || c = '\x0b' || c = '\x0c'

/-- Python `str.lower()` (ASCII fragment: `Char.toLower` lowers `A`-`Z`). -/
def pyLower (s : String) : String := ⟨s.data.map Char.toLower⟩

/-- Python `str.strip()` with no argument: remove leading and trailing
whitespace. -/
def pyStrip (s : String) : String :=
  ⟨((s.data.dropWhile pyWhitespace).reverse.dropWhile pyWhitespace).reverse⟩

/-- One character of the right-to-left scan behind `splitWsChars`:
whitespace closes the word being collected (dropping it when empty),
anything else extends it. -/
def splitWsStep (c : Char) (acc : List Char × List (List Char)) :
    List Char × List (List Char) :=
  if pyWhitespace c then ([], if acc.1 = [] then acc.2 else acc.1 :: acc.2)
  else (c :: acc.1, acc.2)

/-- The maximal whitespace-free runs of a character list, in order. -/
def splitWsChars (l : List Char) : List (List Char) :=
  let r := l.foldr splitWsStep ([], [])
  if r.1 = [] then r.2 else r.1 :: r.2

/-- Python `str.split()` with no argument: split on whitespace runs,
discarding empty pieces. -/
def pySplitWs (s : String) : List String :=
  (splitWsChars s.data).map (fun cs => ⟨cs⟩)

/- ================= src/agents/exception_handler_llm.py : data model ===== -/

/-- One entry of an LLM exception plan's `resolution_steps` list
(a JSON object; `Option` fields model possibly-missing keys). -/
structure ResolutionStep where
  action : Option String
  timeline : Option String
deriving DecidableEq

/-- An LLM-generated exception plan, as consumed by
`ExceptionHandlerAgent._enhance_exception_plan` (only the keys the
enrichment reads are modelled). -/
structure ExceptionPlan where
  severity : Option String
  resolution_steps : Option (List ResolutionStep)
deriving DecidableEq

/-- The `timeline_summary` dict built by
`ExceptionHandlerAgent._create_timeline_summary`. -/
structure TimelineSummary where
  immediate : List String
  short_term : List String
  long_term : List String
deriving DecidableEq

/-- `ExceptionHandlerAgent._create_timeline_summary`
(src/agents/exception_handler_llm.py lines 101-114): iterate over
`exception_plan.get("resolution_steps", [])`; `timeline_key =
step.get("timeline", "short_term")`; append `step.get("action", "")` to
the bucket named `timeline_key` when that key is one of the dict's three
keys, and otherwise skip the step (`if timeline_key in timeline`). -/
def create_timeline_summary (exception_plan : ExceptionPlan) : TimelineSummary :=
  (exception_plan.resolution_steps.getD []).foldl
    (fun timeline step =>
      let timeline_key := step.timeline.getD "short_term"
      if timeline_key = "immediate" then
        { timeline with immediate := timeline.immediate ++ [step.action.getD ""] }
      else if timeline_key = "short_term" then
        { timeline with short_term := timeline.short_term ++ [step.action.getD ""] }
      else if timeline_key = "long_term" then
        { timeline with long_term := timeline.long_term ++ [step.action.getD ""] }
      else timeline)
    ⟨[], [], []⟩

/-- The ordered list of action texts of the steps whose effective timeline
key (`step.get("timeline", "short_term")`) equals `key`. -/
def timeline_bucket (key : String) (steps : List ResolutionStep) : List String :=
  (steps.filter (fun step => decide (step.timeline.getD "short_term" = key))).map
    (fun step => step.action.getD "")

/-- The `risk_assessment` dict of
`ExceptionHandlerAgent._assess_risk_level`. -/
structure RiskAssessment where
  risk_score : Nat
  monitoring_required : Bool
  escalation_needed : Bool
deriving DecidableEq

/-- The `risk_levels` table of `ExceptionHandlerAgent._assess_risk_level`
(src/agents/exception_handler_llm.py lines 120-143), looked up with
`risk_levels.get(severity, risk_levels["medium"])`. -/
def risk_levels (severity : String) : RiskAssessment :=
  if severity = "low" then ⟨2, false, false⟩
  else if severity = "medium" then ⟨5, true, false⟩
  else if severity = "high" then ⟨8, true, true⟩
  else if severity = "critical" then ⟨10, true, true⟩
  else ⟨5, true, false⟩

/-- `ExceptionHandlerAgent._assess_risk_level`: severity defaults to
`"medium"` via `exception_plan.get("severity", "medium")`. -/
def assess_risk_level (exception_plan : ExceptionPlan) : RiskAssessment :=
  risk_levels (exception_plan.severity.getD "medium")

/- ================= src/services/llm_service.py : fallback parsing ====== -/

/-- The policy-interpretation JSON shape produced by
`LLMService.generate_policy_interpretation`. -/
structure PolicyInterpretation where
  direct_answer : Option String
  requirements : List String
  procedures : List String
  exceptions : List String
  compliance_notes : List String
deriving DecidableEq

/-- `LLMService._parse_fallback_response` (src/services/llm_service.py
lines 213-221): `content[:200] + "..." if len(content) > 200 else
content`, all four lists empty. -/
def parse_fallback_response (content : String) : PolicyInterpretation :=
  { direct_answer :=
      some (if content.length > 200 then content.take 200 ++ "..." else content)
    requirements := []
    procedures := []
    exceptions := []
    compliance_notes := [] }

/- ================= src/agents/base.py ================= -/

/-- `AgentState` (src/agents/base.py lines 13-21), restricted to the
fields the confidence claims concern; the `reasoning` trace and `result`
payload do not influence confidence and are not modelled. -/
structure AgentState where
  query : String
  confidence : ℚ
  error : Option String
deriving DecidableEq

/-- `BaseAgent.handle_error` (src/agents/base.py lines 75-93): record the
exception text and zero the confidence. -/
def handle_error (state : AgentState) (error_msg : String) : AgentState :=
  { state with error := some error_msg, confidence := 0 }

/-- A vector-store search hit as returned by
`VectorStoreService.search_similar`: text content, similarity score,
source filename. -/
structure RetrievedDoc where
  content : String
  score : ℚ
  source : String
deriving DecidableEq

/-- Python truthiness of an optional string (`dict.get(key)`): `None` and
the empty string are falsy. -/
def truthyStr : Option String → Bool
  | none => false
  | some s => s ≠ ""

/- ========== src/agents/policy_interpreter.py ========== -/

/-- The filter step of `PolicyInterpreterAgent._retrieve_policies`
(line 83): keep the hits with `score > 0.3`. The raw search results are a
boundary input. -/
def pi_retrieve_policies (results : List RetrievedDoc) : List RetrievedDoc :=
  results.filter (fun doc => decide (doc.score > 3/10))

/-- `PolicyInterpreterAgent._calculate_confidence` (lines 136-150). -/
def pi_calculate_confidence (policy_docs : List RetrievedDoc)
    (interpretation : PolicyInterpretation) : ℚ :=
  if policy_docs = [] then 1/10
  else
    let avg_relevance := (policy_docs.map (fun d => d.score)).sum / policy_docs.length
    let llm_boost : ℚ := if truthyStr interpretation.direct_answer then 1/5 else 0
    let source_boost : ℚ := min (1/5) (policy_docs.length * (1/20))
    min (19/20) (avg_relevance + llm_boost + source_boost)

/-- The confidence/error behaviour of `PolicyInterpreterAgent.process`
(src/agents/policy_interpreter.py lines 34-77). The vector-search outcome
and the LLM outcome are boundary inputs (`Except.error` = that call
raised). Any exception is caught by the surrounding handler and routed
through `handle_error`; zero retained docs take the
`_handle_no_policies` path, which sets confidence 0.1; otherwise
`set_confidence` stores `_calculate_confidence`'s value. -/
def pi_process (search : Except String (List RetrievedDoc))
    (llm : Except String PolicyInterpretation) (state : AgentState) : AgentState :=
  match search with
  | .error e => handle_error state e
  | .ok results =>
    let policy_docs := pi_retrieve_policies results
    if policy_docs = [] then { state with confidence := 1/10 }
    else
      match llm with
      | .error e => handle_error state e
      | .ok interpretation =>
        { state with confidence := pi_calculate_confidence policy_docs interpretation }

/- ========== src/agents/workflow_planner.py ========== -/

/-- One entry of an LLM workflow plan's `steps` list (only presence
matters to the enrichment and confidence logic). -/
structure WorkflowStep where
  description : Option String
deriving DecidableEq

/-- An LLM-generated workflow plan, restricted to the key the enrichment
and confidence logic read. -/
structure WorkflowPlan where
  steps : Option (List WorkflowStep)
deriving DecidableEq

/-- Python `range(start, stop, step)` for `step > 0`: the ascending
progression `start, start+step, …` strictly below `stop` (CPython length
formula `(stop - start + step - 1) // step`; truncated `Nat` subtraction
supplies the clamp at zero). -/
def pyRange (start stop step : Nat) : List Nat :=
  (List.range ((stop - start + step - 1) / step)).map (fun j => start + step * j)

/-- A `checkpoints` entry built by `WorkflowPlannerAgent._add_checkpoints`. -/
structure Checkpoint where
  after_step : Nat
  checkpoint_type : String
  description : String
  reviewer_role : String
deriving DecidableEq

/-- `WorkflowPlannerAgent._identify_dependencies` (lines 102-110):
`enumerate` over the steps, emitting a dependency line for each index
`i > 0`. -/
def identify_dependencies (steps : List WorkflowStep) : List String :=
  (List.range steps.length).filterMap (fun i =>
    if i > 0 then some s!"Step {i+1} depends on completion of Step {i}" else none)

/-- `WorkflowPlannerAgent._add_checkpoints` (lines 112-125):
`for i in range(2, len(steps), 3)`. -/
def add_checkpoints (steps : List WorkflowStep) : List Checkpoint :=
  (pyRange 2 steps.length 3).map (fun i =>
    { after_step := i + 1
      checkpoint_type := "Quality Review"
      description := s!"Review completion of steps 1-{i+1}"
      reviewer_role := "Supervisor" })

/-- `WorkflowPlannerAgent._calculate_confidence` (lines 127-139); the
`detail_boost` guard mirrors Python's short-circuit
`workflow_plan.get("steps") and len(workflow_plan["steps"]) > 2`. -/
def wp_calculate_confidence (policy_docs : List RetrievedDoc)
    (workflow_plan : WorkflowPlan) : ℚ :=
  let base_confidence : ℚ := 4/5
  let policy_boost : ℚ := min (3/20) (policy_docs.length * (1/20))
  let detail_boost : ℚ :=
    match workflow_plan.steps with
    | some steps => if steps ≠ [] ∧ steps.length > 2 then 1/20 else 0
    | none => 0
  min (19/20) (base_confidence + policy_boost + detail_boost)

/-- The confidence/error behaviour of `WorkflowPlannerAgent.process`
(lines 34-72): retrieval keeps hits with `score > 0.2`; an empty doc list
is not special here — the LLM is called regardless. -/
def wp_process (search : Except String (List RetrievedDoc))
    (llm : Except String WorkflowPlan) (state : AgentState) : AgentState :=
  match search with
  | .error e => handle_error state e
  | .ok results =>
    let policy_docs := results.filter (fun doc => decide (doc.score > 1/5))
    match llm with
    | .error e => handle_error state e
    | .ok workflow_plan =>
      { state with confidence := wp_calculate_confidence policy_docs workflow_plan }

/- ========== src/agents/exception_handler_llm.py : process ========== -/

/-- `ExceptionHandlerAgent._calculate_confidence` (lines 145-166). -/
def eh_calculate_confidence (policy_docs : List RetrievedDoc)
    (exception_plan : ExceptionPlan) : ℚ :=
  let base_confidence : ℚ := 3/4
  let policy_boost : ℚ := min (3/20) (policy_docs.length * (1/20))
  let detail_boost : ℚ :=
    match exception_plan.resolution_steps with
    | some steps => if steps ≠ [] ∧ steps.length > 1 then 1/20 else 0
    | none => 0
  let severity := exception_plan.severity.getD "medium"
  let severity_adjustment : ℚ :=
    if severity = "low" then 1/20
    else if severity = "medium" then 0
    else if severity = "high" then -(1/20)
    else if severity = "critical" then -(1/10)
    else 0
  min (19/20) (base_confidence + policy_boost + detail_boost + severity_adjustment)

/-- The confidence/error behaviour of `ExceptionHandlerAgent.process`
(lines 34-72): retrieval keeps hits with `score > 0.2`; no empty-doc
special case. -/
def eh_process (search : Except String (List RetrievedDoc))
    (llm : Except String ExceptionPlan) (state : AgentState) : AgentState :=
  match search with
  | .error e => handle_error state e
  | .ok results =>
    let policy_docs := results.filter (fun doc => decide (doc.score > 1/5))
    match llm with
    | .error e => handle_error state e
    | .ok exception_plan =>
      { state with confidence := eh_calculate_confidence policy_docs exception_plan }

/- ========== src/services/llm_service.py : routing ========== -/

/-- Prefix test on character lists (Python's implicit string matching). -/
def hasPrefixChars : List Char → List Char → Bool
  | [], _ => true
  | _ :: _, [] => false
  | a :: as, b :: bs => a == b && hasPrefixChars as bs

/-- Substring test on character lists. -/
def containsChars (needle : List Char) : List Char → Bool
  | [] => hasPrefixChars needle []
  | c :: rest => hasPrefixChars needle (c :: rest) || containsChars needle rest

/-- Python `needle in hay` on strings: substring containment. -/
def pyIn (needle hay : String) : Bool := containsChars needle.data hay.data

/-- The `valid_agents` list of `LLMService.route_query` (line 202). -/
def valid_agents : List String :=
  ["PolicyInterpreter", "WorkflowPlanner", "ExceptionHandler"]

/-- `LLMService._fallback_routing` (src/services/llm_service.py lines
259-270): keyword routing over the lowercased query. -/
def fallback_routing (query : String) : String :=
  let query_lower := pyLower query
  if ["policy", "regulation", "compliance", "rule"].any
      (fun word => pyIn word query_lower) then "PolicyInterpreter"
  else if ["workflow", "procedure", "steps", "process"].any
      (fun word => pyIn word query_lower) then "WorkflowPlanner"
  else if ["problem", "error", "exception", "emergency", "issue"].any
      (fun word => pyIn word query_lower) then "ExceptionHandler"
  else "PolicyInterpreter"

/-- `LLMService.route_query` (lines 176-211): the model's reply text (or
the fact that the call raised, `Except.error`) is a boundary input; the
reply is stripped and checked against the three agent names, and anything
else falls back to keyword routing. -/
def route_query (llm_response : Except String String) (query : String) : String :=
  match llm_response with
  | .error _ => fallback_routing query
  | .ok content =>
    let agent_name := pyStrip content
    if valid_agents.contains agent_name then agent_name
    else fallback_routing query

/- ========== src/services/document_service.py : validate_file ========== -/

/-- The two `Settings` fields `DocumentProcessor` reads; defaults from
src/utils/config.py lines 67-68. -/
structure DocSettings where
  max_file_size_mb : Nat
  supported_file_types : String
deriving DecidableEq

/-- The default configuration: `max_file_size_mb: int = 50`,
`supported_file_types: str = "pdf,txt,docx"`. -/
def default_settings : DocSettings := ⟨50, "pdf,txt,docx"⟩

/-- Splitting a character list at every occurrence of `sep`, keeping
empty pieces — Python `str.split(sep)` for a one-character separator. -/
def splitOnChar (sep : Char) : List Char → List (List Char)
  | [] => [[]]
  | c :: rest =>
    match splitOnChar sep rest with
    | [] => [[c]]
    | w :: ws => if c = sep then [] :: w :: ws else (c :: w) :: ws

/-- `self.supported_types = settings.supported_file_types.split(",")`
(document_service.py line 32). -/
def supported_types (s : DocSettings) : List String :=
  (splitOnChar ',' s.supported_file_types.data).map (fun cs => ⟨cs⟩)

/-- `self.max_size_bytes = settings.max_file_size_mb * 1024 * 1024`
(document_service.py line 33). -/
def max_size_bytes (s : DocSettings) : Nat :=
  s.max_file_size_mb * 1024 * 1024

/-- The characters after the last `'.'` of a name (`none` when the name
contains no dot). -/
def afterLastDot : List Char → Option (List Char)
  | [] => none
  | c :: rest =>
    match afterLastDot rest with
    | some t => some t
    | none => if c = '.' then some rest else none

/-- `pathlib.PurePath(filename).suffix` (POSIX form): the extension of the
final path component, dot included; empty when the component's last dot
is absent, leads the name, or ends it (CPython keeps the suffix only when
`0 < name.rfind('.') < len(name) - 1`). -/
def pathSuffix (filename : String) : String :=
  let name := ((filename.splitOn "/").filter (fun p => p ≠ "")).getLastD ""
  match afterLastDot name.data with
  | none => ""
  | some t => if t ≠ [] ∧ t.length + 1 < name.length then ⟨'.' :: t⟩ else ""

/-- `Path(filename).suffix.lower().lstrip('.')` (document_service.py line
58); `lstrip('.')` removes every leading dot. -/
def file_extension (filename : String) : String :=
  ⟨(pyLower (pathSuffix filename)).data.dropWhile (fun c => c = '.')⟩

/-- `DocumentProcessor.validate_file` (document_service.py lines 37-65):
raise `DocumentProcessingError` when the size exceeds the byte budget or
the extension is not in the supported list; otherwise return normally.
The function reads no mutable state and only logs on success. -/
def validate_file (s : DocSettings) (filename : String) (file_size : Nat) :
    Except String Unit :=
  if file_size > max_size_bytes s then
    .error s!"File size {file_size} bytes exceeds maximum allowed size of {max_size_bytes s} bytes"
  else if (supported_types s).contains (file_extension filename) = false then
    .error s!"File type not supported: {file_extension filename}"
  else
    .ok ()

/- ========== src/services/auth_service.py : RateLimiter ========== -/

/-- The `seconds` component of the Python `timedelta` `now - req`, for
whole-second timestamps with `req ≤ now`: `timedelta` normalises into
days plus a seconds field in `[0, 86400)`, so `.seconds` is the elapsed
time modulo one day — not the total elapsed seconds. -/
def td_seconds (now req : Nat) : Nat := (now - req) % 86400

/-- `RateLimiter.is_allowed` (src/services/auth_service.py lines
185-203), for one key's stored timestamp list and the current time `now`
(whole seconds; `datetime.now` is monotone across calls). Keeps the
timestamps with `(now - req_time).seconds < window`, then allows and
records the request exactly when fewer than `limit` remain. Returns the
decision and the key's new timestamp list. -/
def is_allowed (stored : List Nat) (limit window : Nat) (now : Nat) :
    Bool × List Nat :=
  let kept := stored.filter (fun req_time => decide (td_seconds now req_time < window))
  if kept.length < limit then (true, kept ++ [now])
  else (false, kept)

/- ========== src/services/evaluation_service.py ========== -/

/-- A retrieved document as consumed by the evaluation service:
`doc.get('content', '')` and `doc.get('score', 0.0)`. -/
structure EvalDoc where
  content : Option String
  score : Option ℚ
deriving DecidableEq

/-- Python float division, raising `ZeroDivisionError` on a zero
denominator. -/
def pyDiv (a b : ℚ) : Option ℚ := if b = 0 then none else some (a / b)

/-- The distinct words of a text: `set(text.lower().split())`, as an
order-preserving deduplicated list. -/
def wordSet (text : String) : List String := (pySplitWs (pyLower text)).dedup

/-- `len(a ∩ b)` for two Python word sets. -/
def overlapCount (a b : List String) : Nat :=
  (a.filter (fun w => b.contains w)).length

/-- `EvaluationService._calculate_answer_relevance` (lines 135-154); both
divisions are guarded in the source, so the function is total. -/
def calculate_answer_relevance (query answer : String) : ℚ :=
  if answer = "" ∨ query = "" then 0
  else
    let query_words := wordSet query
    let answer_words := wordSet answer
    let overlap := overlapCount query_words answer_words
    let relevance : ℚ :=
      if query_words ≠ [] then (overlap : ℚ) / query_words.length else 0
    let relevance := if answer.length < 50 then relevance * (7/10) else relevance
    min relevance 1

/-- `EvaluationService._calculate_faithfulness` (lines 156-176); guarded
against empty inputs in the source, hence total. -/
def calculate_faithfulness (answer : String) (retrieved_docs : List EvalDoc) : ℚ :=
  if retrieved_docs = [] ∨ answer = "" then 0
  else
    let answer_words := wordSet answer
    let doc_words :=
      (retrieved_docs.foldl (fun acc doc => acc ++ pySplitWs (pyLower (doc.content.getD ""))) []).dedup
    if answer_words = [] then 0
    else min ((overlapCount answer_words doc_words : ℚ) / answer_words.length) 1

/-- The loop body of `EvaluationService._calculate_context_precision`
(lines 188-195): each retrieved doc divides its overlap count by the
answer's word count — an unguarded division that raises
`ZeroDivisionError` when the answer has no words. -/
def context_precision_loop (answer_words : List String) :
    List EvalDoc → Option Nat
  | [] => some 0
  | doc :: docs => do
    let doc_words := wordSet (doc.content.getD "")
    let overlap := overlapCount answer_words doc_words
    let ratio ← pyDiv (overlap : ℚ) (answer_words.length : ℚ)
    let rest ← context_precision_loop answer_words docs
    pure ((if ratio > 1/5 then 1 else 0) + rest)

/-- `EvaluationService._calculate_context_precision` (lines 178-197). -/
def calculate_context_precision (retrieved_docs : List EvalDoc)
    (answer : String) : Option ℚ :=
  if retrieved_docs = [] then some 0
  else
    (context_precision_loop (wordSet answer) retrieved_docs).map
      (fun relevant_count => (relevant_count : ℚ) / retrieved_docs.length)

/-- `EvaluationService._calculate_context_recall` (lines 199-210). -/
def calculate_context_recall (retrieved_docs : List EvalDoc) : ℚ :=
  if retrieved_docs = [] then 0
  else
    let scores := retrieved_docs.map (fun doc => doc.score.getD 0)
    let avg_score := if scores ≠ [] then scores.sum / scores.length else 0
    min avg_score 1

/-- The dict returned by `EvaluationService._evaluate_retrieval_quality`
(lines 212-234); the empty-doc-list early return carries only the first
two keys, hence the `Option` fields. -/
structure RetrievalQuality where
  quality : String
  score : ℚ
  num_docs : Option Nat
  top_score : Option ℚ
deriving DecidableEq

/-- `EvaluationService._evaluate_retrieval_quality`. -/
def evaluate_retrieval_quality (retrieved_docs : List EvalDoc) : RetrievalQuality :=
  if retrieved_docs = [] then ⟨"poor", 0, none, none⟩
  else
    let scores := retrieved_docs.map (fun doc => doc.score.getD 0)
    let avg_score := scores.sum / scores.length
    let quality :=
      if avg_score > 4/5 then "excellent"
      else if avg_score > 3/5 then "good"
      else if avg_score > 2/5 then "fair"
      else "poor"
    let top_score := match scores with | [] => (0 : ℚ) | s :: rest => rest.foldl max s
    ⟨quality, avg_score, some retrieved_docs.length, some top_score⟩

/-- Python `str.endswith`. -/
def pyEndsWith (s suffix : String) : Bool :=
  hasPrefixChars suffix.data.reverse s.data.reverse

/-- `EvaluationService._check_response_completeness` (lines 236-243). -/
structure ResponseCompleteness where
  has_content : Bool
  min_length_met : Bool
  has_structure : Bool
  is_complete : Bool
deriving DecidableEq

/-- `EvaluationService._check_response_completeness`. -/
def check_response_completeness (answer : String) : ResponseCompleteness :=
  { has_content := (pyStrip answer).length > 0
    min_length_met := answer.length ≥ 20
    has_structure := [".", ":", "\n"].any (fun marker => pyIn marker answer)
    is_complete := !(pyEndsWith answer "...") }

/-- `EvaluationService._calculate_accuracy` (lines 245-254); the division
is guarded by the empty-truth-words early return. -/
def calculate_accuracy (answer ground_truth : String) : ℚ :=
  let answer_words := wordSet answer
  let truth_words := wordSet ground_truth
  if truth_words = [] then 0
  else (overlapCount answer_words truth_words : ℚ) / truth_words.length

/-- `EvaluationService._calculate_overall_score` (lines 256-270). -/
def calculate_overall_score (answer_relevance faithfulness context_precision
    context_recall : ℚ) : ℚ :=
  min (3/10 * answer_relevance + 3/10 * faithfulness
    + 1/5 * context_precision + 1/5 * context_recall) 1

/-- The metrics record assembled by
`EvaluationService.evaluate_rag_response` (lines 38-53); the wall-clock
`timestamp` field is not modelled. -/
structure RagMetrics where
  answer_relevance : ℚ
  faithfulness : ℚ
  context_precision : ℚ
  context_recall : ℚ
  retrieval_quality : RetrievalQuality
  response_completeness : ResponseCompleteness
  accuracy : Option ℚ
  overall_score : ℚ
deriving DecidableEq

/-- `EvaluationService.evaluate_rag_response` (lines 19-60): builds the
metrics dict, propagating the `ZeroDivisionError` that
`_calculate_context_precision` can raise (`none`); the public entry point
has no guard of its own. `accuracy` is added only `if ground_truth:`
(Python truthiness). -/
def evaluate_rag_response (query answer : String) (retrieved_docs : List EvalDoc)
    (ground_truth : Option String) : Option RagMetrics := do
  let answer_relevance := calculate_answer_relevance query answer
  let faithfulness := calculate_faithfulness answer retrieved_docs
  let context_precision ← calculate_context_precision retrieved_docs answer
  let context_recall := calculate_context_recall retrieved_docs
  let retrieval_quality := evaluate_retrieval_quality retrieved_docs
  let response_completeness := check_response_completeness answer
  let accuracy :=
    if truthyStr ground_truth then some (calculate_accuracy answer (ground_truth.getD ""))
    else none
  pure
    { answer_relevance := answer_relevance
      faithfulness := faithfulness
      context_precision := context_precision
      context_recall := context_recall
      retrieval_quality := retrieval_quality
      response_completeness := response_completeness
      accuracy := accuracy
      overall_score := calculate_overall_score answer_relevance faithfulness
        context_precision context_recall }

/- ========== src/services/guardrails_service.py : pattern model ========== -/

/-- Regular-expression abstract syntax covering the guardrails patterns:
single-character classes, concatenation, alternation, counted repetition
(greedy or lazy) and the `\b` word-boundary assertion. -/
inductive Reg where
  | eps : Reg
  | cls : (Char → Bool) → Reg
  | seq : Reg → Reg → Reg
  | alt : Reg → Reg → Reg
  | rep : Reg → Nat → Option Nat → Bool → Reg
  | bound : Reg

/-- `\w` (ASCII fragment): letters, digits, underscore. -/
def wordChar (c : Char) : Bool := c.isAlpha || c.isDigit || c = '_'

/-- The `\b` condition between the previously consumed character (if any)
and the upcoming input. -/
def atBoundary (prev : Option Char) (rest : List Char) : Bool :=
  let before := match prev with | some c => wordChar c | none => false
  let after := match rest with | c :: _ => wordChar c | [] => false
  before != after

/-- All ways a counted repetition can proceed, in the backtracking
engine's preference order (greedy prefers more iterations first, lazy
fewer); each iteration must consume input, so the remaining length
bounds the fuel. -/
def repMatch (m : Option Char × List Char → List (Option Char × List Char)) :
    Nat → Nat → Option Nat → Bool → Option Char × List Char →
    List (Option Char × List Char)
  | 0, lo, _, _, st => if lo = 0 then [st] else []
  | fuel + 1, lo, hi, greedy, st =>
    let here := if lo = 0 then [st] else []
    let deeper :=
      if hi = some 0 then []
      else
        ((m st).filter (fun st2 => st2.2.length < st.2.length)).flatMap
          (fun st2 => repMatch m fuel (lo - 1) (hi.map (fun n => n - 1)) greedy st2)
    if greedy then deeper ++ here else here ++ deeper

/-- The machine states (last consumed character, remaining input)
reachable by matching `r` once, listed in the Python backtracking
engine's preference order — the head is the alternative `re` commits to. -/
def matchReg : Reg → Option Char × List Char → List (Option Char × List Char)
  | .eps, st => [st]
  | .cls _, (_, []) => []
  | .cls f, (_, c :: rest) => if f c then [(some c, rest)] else []
  | .bound, (prev, rest) => if atBoundary prev rest then [(prev, rest)] else []
  | .seq r1 r2, st => (matchReg r1 st).flatMap (matchReg r2)
  | .alt r1 r2, st => matchReg r1 st ++ matchReg r2 st
  | .rep r lo hi greedy, st => repMatch (matchReg r) (st.2.length + 1) lo hi greedy st

/-- One `re.sub` pass: scan the original string left to right; where the
engine's preferred match starts, emit the replacement and resume after
the matched text (matching continues against the original text, so the
resume state keeps the last consumed character for `\b`); elsewhere copy
the character. Every guardrails pattern consumes at least one character
when it matches; a hypothetical empty-width match is stepped over. -/
def subScan (r : Reg) (repl : List Char) : Nat → Option Char → List Char → List Char
  | _, _, [] => []
  | 0, _, s => s
  | fuel + 1, prev, c :: rest =>
    match matchReg r (prev, c :: rest) with
    | (prev2, rest2) :: _ =>
      if rest2.length < (c :: rest).length then
        repl ++ subScan r repl fuel prev2 rest2
      else
        c :: subScan r repl fuel (some c) rest
    | [] => c :: subScan r repl fuel (some c) rest

/-- `re.sub(pattern, repl, s, flags=re.IGNORECASE)` (case folding lives
inside the character classes below). -/
def reSub (r : Reg) (repl : String) (s : String) : String :=
  ⟨subScan r repl.data s.data.length none s.data⟩

/-- Whether some position of the input admits a match of `r` —
`re.search` viewed as a Boolean. -/
def hasMatchFrom (r : Reg) (prev : Option Char) : List Char → Bool
  | [] => !(matchReg r (prev, [])).isEmpty
  | c :: rest => !(matchReg r (prev, c :: rest)).isEmpty || hasMatchFrom r (some c) rest

/-- `re.search(pattern, s, re.IGNORECASE) is not None`. -/
def hasMatch (r : Reg) (s : String) : Bool := hasMatchFrom r none s.data

/- Pattern constructors mirroring the regex source text. -/

/-- A literal character under `re.IGNORECASE`. -/
def chr (c : Char) : Reg := .cls (fun x => x.toLower == c.toLower)

/-- Concatenation of a pattern list. -/
def seqAll (rs : List Reg) : Reg := rs.foldr Reg.seq Reg.eps

/-- A literal string under `re.IGNORECASE`. -/
def lit (s : String) : Reg := seqAll (s.data.map chr)

/-- Alternation `a|b|…` with Python's left-first preference. -/
def altAll : List Reg → Reg
  | [] => .cls (fun _ => false)
  | [r] => r
  | r :: rest => .alt r (altAll rest)

/-- `\d`. -/
def digit : Reg := .cls Char.isDigit

/-- `\s` (`[ \t\n\r\f\v]`). -/
def wsCls : Reg := .cls pyWhitespace

/-- `{n}`. -/
def exactly (r : Reg) (n : Nat) : Reg := .rep r n (some n) true

/-- `{n,}`. -/
def atLeast (r : Reg) (n : Nat) : Reg := .rep r n none true

/-- `{n,m}`. -/
def between (r : Reg) (n m : Nat) : Reg := .rep r n (some m) true

/-- `?`. -/
def opt (r : Reg) : Reg := .rep r 0 (some 1) true

/-- `*`. -/
def star (r : Reg) : Reg := .rep r 0 none true

/-- `*?`. -/
def lazyStar (r : Reg) : Reg := .rep r 0 none false

/-- A character class given by an explicit character set. -/
def oneOf (cs : String) : Reg := .cls (fun x => cs.data.contains x)

/-- `'ssn': r'\b\d{3}-\d{2}-\d{4}\b'` (guardrails_service.py line 16). -/
def ssn_pattern : Reg :=
  seqAll [.bound, exactly digit 3, chr '-', exactly digit 2, chr '-',
    exactly digit 4, .bound]

/-- `'phone': r'\b\d{3}[-.]?\d{3}[-.]?\d{4}\b'` (line 17). -/
def phone_pattern : Reg :=
  seqAll [.bound, exactly digit 3, opt (oneOf "-."), exactly digit 3,
    opt (oneOf "-."), exactly digit 4, .bound]

/-- `'email': r'\b[A-Za-z0-9._%+-]+@[A-Za-z0-9.-]+\.[A-Z|a-z]{2,}\b'`
(line 18; the last class literally contains `|`). -/
def email_pattern : Reg :=
  seqAll [.bound,
    atLeast (.cls (fun x => x.isAlpha || x.isDigit || "._%+-".data.contains x)) 1,
    chr '@',
    atLeast (.cls (fun x => x.isAlpha || x.isDigit || ".-".data.contains x)) 1,
    chr '.',
    atLeast (.cls (fun x => x.isAlpha || x == '|')) 2,
    .bound]

/-- `'mrn': r'\b(MRN|Medical Record Number)[:\s]*\d{6,10}\b'` (line 19). -/
def mrn_pattern : Reg :=
  seqAll [.bound, altAll [lit "MRN", lit "Medical Record Number"],
    star (.cls (fun x => x == ':' || pyWhitespace x)),
    between digit 6 10, .bound]

/-- `'dob'` (line 20): one or two digits, a slash-or-dash class, one or
two digits, a slash-or-dash class, two to four digits, between `\b`s. -/
def dob_pattern : Reg :=
  seqAll [.bound, between digit 1 2, oneOf "/-", between digit 1 2,
    oneOf "/-", between digit 2 4, .bound]

/-- `'credit_card': r'\b\d{4}[-\s]?\d{4}[-\s]?\d{4}[-\s]?\d{4}\b'`
(line 21). -/
def credit_card_pattern : Reg :=
  seqAll [.bound, exactly digit 4, opt (.cls (fun x => x == '-' || pyWhitespace x)),
    exactly digit 4, opt (.cls (fun x => x == '-' || pyWhitespace x)),
    exactly digit 4, opt (.cls (fun x => x == '-' || pyWhitespace x)),
    exactly digit 4, .bound]

/-- `r'\b(password|secret|api[_-]?key|token)\b'` (line 26). -/
def credentials_pattern : Reg :=
  seqAll [.bound,
    altAll [lit "password", lit "secret",
      seqAll [lit "api", opt (oneOf "_-"), lit "key"], lit "token"],
    .bound]

/-- `r'\b(inject|drop\s+table|union\s+select)\b'` (line 27). -/
def sql_pattern : Reg :=
  seqAll [.bound,
    altAll [lit "inject",
      seqAll [lit "drop", atLeast wsCls 1, lit "table"],
      seqAll [lit "union", atLeast wsCls 1, lit "select"]],
    .bound]

/-- `r'<script[^>]*>.*?</script>'` (line 28); without `re.DOTALL`, `.`
excludes the newline. -/
def script_pattern : Reg :=
  seqAll [lit "<script", star (.cls (fun x => x != '>')), chr '>',
    lazyStar (.cls (fun x => x != '\n')), lit "</script>"]

/-- `PII_PATTERNS` in dict (insertion) order, each with its
`[REDACTED_{TYPE}]` replacement (sanitize_output lines 135-137). -/
def pii_substitutions : List (Reg × String) :=
  [(ssn_pattern, "[REDACTED_SSN]"),
   (phone_pattern, "[REDACTED_PHONE]"),
   (email_pattern, "[REDACTED_EMAIL]"),
   (mrn_pattern, "[REDACTED_MRN]"),
   (dob_pattern, "[REDACTED_DOB]"),
   (credit_card_pattern, "[REDACTED_CREDIT_CARD]")]

/-- `PROHIBITED_PATTERNS` in list order (lines 25-29). -/
def prohibited_patterns_list : List Reg :=
  [credentials_pattern, sql_pattern, script_pattern]

/-- `GuardrailsService.sanitize_output` (lines 123-143): substitute every
PII pattern, then every prohibited pattern, in order. -/
def sanitize_output (text : String) : String :=
  let sanitized :=
    pii_substitutions.foldl (fun acc pr => reSub pr.1 pr.2 acc) text
  prohibited_patterns_list.foldl (fun acc p => reSub p "[REMOVED]" acc) sanitized

/-- Every pattern `sanitize_output` substitutes, in application order. -/
def all_guardrail_patterns : List Reg :=
  pii_substitutions.map Prod.fst ++ prohibited_patterns_list

/- ===================== Theorems ===================== -/

/-- Folding the timeline-summary step over any accumulator appends, per
bucket, exactly the actions of the steps whose effective timeline key
names that bucket. -/
lemma timeline_foldl_general (steps : List ResolutionStep) :
    ∀ acc : TimelineSummary,
      steps.foldl
        (fun timeline step =>
          let timeline_key := step.timeline.getD "short_term"
          if timeline_key = "immediate" then
            { timeline with immediate := timeline.immediate ++ [step.action.getD ""] }
          else if timeline_key = "short_term" then
            { timeline with short_term := timeline.short_term ++ [step.action.getD ""] }
          else if timeline_key = "long_term" then
            { timeline with long_term := timeline.long_term ++ [step.action.getD ""] }
          else timeline) acc
      = ⟨acc.immediate ++ timeline_bucket "immediate" steps,
         acc.short_term ++ timeline_bucket "short_term" steps,
         acc.long_term ++ timeline_bucket "long_term" steps⟩ := by
  induction steps with
  | nil => intro acc; simp [timeline_bucket]
  | cons s rest ih =>
    intro acc
    simp only [List.foldl_cons]
    rw [ih]
    simp only [timeline_bucket, List.filter_cons]
    by_cases h1 : s.timeline.getD "short_term" = "immediate"
    · simp [h1]
    · by_cases h2 : s.timeline.getD "short_term" = "short_term"
      · simp [h1, h2]
      · by_cases h3 : s.timeline.getD "short_term" = "long_term"
        · simp [h1, h2, h3]
        · simp [h1, h2, h3]

/-- C2 (amended): `timeline_summary` buckets each resolution step's
action text by the step's `timeline` field into
immediate/short_term/long_term, preserving step order; a step with no
`timeline` field defaults into short_term, while a step whose present
`timeline` value is not one of the three recognized keys is omitted from
every bucket. -/
theorem create_timeline_summary_buckets (exception_plan : ExceptionPlan) :
    create_timeline_summary exception_plan =
      ⟨timeline_bucket "immediate" (exception_plan.resolution_steps.getD []),
       timeline_bucket "short_term" (exception_plan.resolution_steps.getD []),
       timeline_bucket "long_term" (exception_plan.resolution_steps.getD [])⟩ := by
  unfold create_timeline_summary
  rw [timeline_foldl_general]
  simp

/-- C2 (counterexample): a step whose `timeline` value `"4 hours"` is not
one of the three recognized keys is dropped from every bucket — it is not
placed in `short_term`, contrary to the claim. -/
theorem timeline_unrecognized_value_dropped :
    create_timeline_summary
        ⟨some "high", some [⟨some "Notify the supervisor", some "4 hours"⟩]⟩ =
      ⟨[], [], []⟩ ∧
    (create_timeline_summary
        ⟨some "high", some [⟨some "Notify the supervisor", some "4 hours"⟩]⟩).short_term ≠
      ["Notify the supervisor"] := by
  decide

/-- C5: the risk table maps low/medium/high/critical to
(2, false, false)/(5, true, false)/(8, true, true)/(10, true, true), and
every severity outside these four yields the medium row. -/
theorem assess_risk_level_table (exception_plan : ExceptionPlan) :
    (exception_plan.severity = some "low" →
      assess_risk_level exception_plan = ⟨2, false, false⟩) ∧
    (exception_plan.severity = some "medium" →
      assess_risk_level exception_plan = ⟨5, true, false⟩) ∧
    (exception_plan.severity = some "high" →
      assess_risk_level exception_plan = ⟨8, true, true⟩) ∧
    (exception_plan.severity = some "critical" →
      assess_risk_level exception_plan = ⟨10, true, true⟩) ∧
    (∀ s : String, exception_plan.severity = some s → s ≠ "low" → s ≠ "medium" →
      s ≠ "high" → s ≠ "critical" →
      assess_risk_level exception_plan = ⟨5, true, false⟩) := by
  refine ⟨?_, ?_, ?_, ?_, ?_⟩
  · intro h; simp [assess_risk_level, risk_levels, h]
  · intro h; simp [assess_risk_level, risk_levels, h]
  · intro h; simp [assess_risk_level, risk_levels, h]
  · intro h; simp [assess_risk_level, risk_levels, h]
  · intro s hs h1 h2 h3 h4; simp [assess_risk_level, risk_levels, hs, h1, h2, h3, h4]

/-- Witness for C5 at the four named severities and one unrecognized
value. -/
theorem assess_risk_level_table_witness :
    assess_risk_level ⟨some "low", none⟩ = ⟨2, false, false⟩ ∧
    assess_risk_level ⟨some "medium", none⟩ = ⟨5, true, false⟩ ∧
    assess_risk_level ⟨some "high", none⟩ = ⟨8, true, true⟩ ∧
    assess_risk_level ⟨some "critical", none⟩ = ⟨10, true, true⟩ ∧
    assess_risk_level ⟨some "catastrophic", none⟩ = ⟨5, true, false⟩ :=
  ⟨(assess_risk_level_table _).1 rfl,
   (assess_risk_level_table _).2.1 rfl,
   (assess_risk_level_table _).2.2.1 rfl,
   (assess_risk_level_table _).2.2.2.1 rfl,
   (assess_risk_level_table _).2.2.2.2 "catastrophic" rfl (by decide) (by decide)
     (by decide) (by decide)⟩

/-- C3 (amended): the JSON-decode fallback returns empty
requirements/procedures/exceptions/compliance_notes, and a direct answer
equal to the first 200 characters of the raw output followed by `"..."`
when the output is longer than 200 characters — and equal to the raw
output unchanged otherwise. -/
theorem parse_fallback_response_spec (content : String) :
    (parse_fallback_response content).requirements = [] ∧
    (parse_fallback_response content).procedures = [] ∧
    (parse_fallback_response content).exceptions = [] ∧
    (parse_fallback_response content).compliance_notes = [] ∧
    (content.length > 200 →
      (parse_fallback_response content).direct_answer =
        some (content.take 200 ++ "...")) ∧
    (¬ content.length > 200 →
      (parse_fallback_response content).direct_answer = some content) := by
  refine ⟨rfl, rfl, rfl, rfl, ?_, ?_⟩ <;> intro h <;> simp [parse_fallback_response, h]

/-- C3 (counterexample): on the two-character raw output `"hi"` the
fallback's direct answer is `"hi"`, not the claimed
first-200-characters-plus-`"..."` value `"hi..."`. -/
theorem parse_fallback_keeps_short_output :
    (parse_fallback_response "hi").direct_answer = some "hi" ∧
    (parse_fallback_response "hi").direct_answer ≠
      some (("hi" : String).take 200 ++ "...") := by
  decide

/-- Witness for C3 on both sides of the 200-character threshold. -/
theorem parse_fallback_response_spec_witness :
    (parse_fallback_response ⟨List.replicate 201 'a'⟩).direct_answer =
      some ((⟨List.replicate 201 'a'⟩ : String).take 200 ++ "...") ∧
    (parse_fallback_response "hi").direct_answer = some "hi" :=
  ⟨(parse_fallback_response_spec _).2.2.2.2.1 (by decide),
   (parse_fallback_response_spec _).2.2.2.2.2 (by decide)⟩

/-- C4: `validate_file` fails exactly when the size exceeds
`max_file_size_mb × 1,048,576` bytes or the lowercase extension stripped
of its leading dot is not in the configured supported list; the default
configuration gives the set {pdf, txt, docx} and 52,428,800 bytes. The
function is pure: success returns `()` and touches no state. -/
theorem validate_file_error_iff (s : DocSettings) (filename : String) (file_size : Nat) :
    ((∃ e, validate_file s filename file_size = .error e) ↔
      (file_size > max_size_bytes s ∨
        (supported_types s).contains (file_extension filename) = false)) ∧
    supported_types default_settings = ["pdf", "txt", "docx"] ∧
    max_size_bytes default_settings = 52428800 := by
  refine ⟨?_, by decide, by decide⟩
  unfold validate_file
  split_ifs with h1 h2
  · simp [h1]
  · simp at h2; simp [h2]
  · simp at h2; simp [h1, h2]

/-- C8 (code-bug exhibit): with limit 1 and a 60-second window, the first
request at t = 0 is allowed and recorded; a request one full day later —
86,340 seconds after the window elapsed — is denied, because
`timedelta.seconds` wraps modulo one day (86,400 s ↦ 0 < 60), so the
"remove old requests outside window" filter keeps the day-old timestamp.
Within the same day the limiter does behave as documented (t = 61 is
allowed again). -/
theorem rate_limiter_day_wrap :
    (is_allowed [] 1 60 0).1 = true ∧
    (is_allowed [] 1 60 0).2 = [0] ∧
    (is_allowed [0] 1 60 86400).1 = false ∧
    td_seconds 86400 0 = 0 ∧
    (is_allowed [0] 1 60 61).1 = true := by
  decide

/-- The dependency list in closed form: the `enumerate` loop keeps the
indices `1..n-1`, each shifted into the 1-based statement. -/
lemma identify_dependencies_eq (steps : List WorkflowStep) :
    identify_dependencies steps =
      (List.range (steps.length - 1)).map
        (fun j => s!"Step {j+2} depends on completion of Step {j+1}") := by
  unfold identify_dependencies
  generalize steps.length = n
  cases n with
  | zero => simp
  | succ n =>
    rw [List.range_succ_eq_map, List.filterMap_cons]
    have h0 : ¬ ((0:ℕ) > 0) := by omega
    rw [if_neg h0, Nat.succ_sub_one, List.filterMap_map]
    have hfun :
        ((fun i => if i > 0 then
            some s!"Step {i+1} depends on completion of Step {i}" else none) ∘ Nat.succ)
          = fun j => some s!"Step {j+2} depends on completion of Step {j+1}" := by
      funext j
      simp only [Function.comp_apply]
      rw [if_pos (Nat.succ_pos j)]
    rw [hfun]
    dsimp only
    exact congr_fun (List.filterMap_eq_map _) _

/-- The checkpoint list in closed form: `range(2, n, 3)` visits
`2, 5, 8, …`, i.e. one checkpoint after step `3k` for each `3k ≤ n`. -/
lemma add_checkpoints_eq (steps : List WorkflowStep) :
    add_checkpoints steps =
      (List.range (steps.length / 3)).map (fun k =>
        ⟨3 * (k + 1), "Quality Review",
          s!"Review completion of steps 1-{3*(k+1)}", "Supervisor"⟩) := by
  unfold add_checkpoints pyRange
  have hcount : (steps.length - 2 + 3 - 1) / 3 = steps.length / 3 := by omega
  rw [hcount, List.map_map]
  apply List.map_congr_left
  intro k _
  have h1 : 2 + 3 * k + 1 = 3 * (k + 1) := by ring
  simp only [Function.comp_apply]
  rw [h1]

/-- C7: a workflow with `n` steps gets exactly `n − 1` dependency lines,
the `i`-th (for `i` from 2 to `n`) reading "Step i depends on completion
of Step i−1", and checkpoints exactly after steps 3, 6, 9, … (`3k ≤ n`),
each a "Quality Review" for reviewer role "Supervisor"; in particular 7
steps give checkpoints after steps 3 and 6 only, and at most 2 steps give
none. -/
theorem workflow_enrichment_spec (steps : List WorkflowStep) :
    identify_dependencies steps =
      (List.range (steps.length - 1)).map
        (fun j => s!"Step {j+2} depends on completion of Step {j+1}") ∧
    (identify_dependencies steps).length = steps.length - 1 ∧
    add_checkpoints steps =
      (List.range (steps.length / 3)).map (fun k =>
        ⟨3 * (k + 1), "Quality Review",
          s!"Review completion of steps 1-{3*(k+1)}", "Supervisor"⟩) ∧
    (steps.length ≤ 2 → add_checkpoints steps = []) ∧
    (add_checkpoints (List.replicate 7 ⟨none⟩)).map (fun c => c.after_step) = [3, 6] := by
  refine ⟨identify_dependencies_eq steps, ?_, add_checkpoints_eq steps, ?_, ?_⟩
  · rw [identify_dependencies_eq steps]; simp
  · intro hle
    rw [add_checkpoints_eq steps]
    have : steps.length / 3 = 0 := by omega
    rw [this]; rfl
  · decide

/-- Witness for C7: a 2-step workflow receives no checkpoints; a 7-step
workflow receives checkpoints after steps 3 and 6 only. -/
theorem workflow_enrichment_spec_witness :
    add_checkpoints [⟨none⟩, ⟨none⟩] = [] ∧
    (add_checkpoints (List.replicate 7 ⟨none⟩)).map (fun c => c.after_step) = [3, 6] :=
  ⟨(workflow_enrichment_spec [⟨none⟩, ⟨none⟩]).2.2.2.1 (by decide),
   (workflow_enrichment_spec []).2.2.2.2⟩

/-- C6: whenever the LLM's routing reply, trimmed, is not exactly one of
the three agent names — or the model call raises — `route_query` returns
the keyword-routing result, which is: PolicyInterpreter when the
lowercased query contains a policy keyword; else WorkflowPlanner for a
workflow keyword; else ExceptionHandler for a problem keyword; else
PolicyInterpreter. -/
theorem route_query_fallback_spec :
    (∀ query content : String, valid_agents.contains (pyStrip content) = false →
      route_query (.ok content) query = fallback_routing query) ∧
    (∀ query e : String, route_query (.error e) query = fallback_routing query) ∧
    (∀ query : String,
      ["policy", "regulation", "compliance", "rule"].any
          (fun w => pyIn w (pyLower query)) = true →
      fallback_routing query = "PolicyInterpreter") ∧
    (∀ query : String,
      ["policy", "regulation", "compliance", "rule"].any
          (fun w => pyIn w (pyLower query)) = false →
      ["workflow", "procedure", "steps", "process"].any
          (fun w => pyIn w (pyLower query)) = true →
      fallback_routing query = "WorkflowPlanner") ∧
    (∀ query : String,
      ["policy", "regulation", "compliance", "rule"].any
          (fun w => pyIn w (pyLower query)) = false →
      ["workflow", "procedure", "steps", "process"].any
          (fun w => pyIn w (pyLower query)) = false →
      ["problem", "error", "exception", "emergency", "issue"].any
          (fun w => pyIn w (pyLower query)) = true →
      fallback_routing query = "ExceptionHandler") ∧
    (∀ query : String,
      ["policy", "regulation", "compliance", "rule"].any
          (fun w => pyIn w (pyLower query)) = false →
      ["workflow", "procedure", "steps", "process"].any
          (fun w => pyIn w (pyLower query)) = false →
      ["problem", "error", "exception", "emergency", "issue"].any
          (fun w => pyIn w (pyLower query)) = false →
      fallback_routing query = "PolicyInterpreter") := by
  refine ⟨?_, ?_, ?_, ?_, ?_, ?_⟩
  · intro query content h
    simp at h
    simp [route_query, h]
  · intro query e
    rfl
  · intro query h
    simp [fallback_routing, h]
  · intro query h1 h2
    simp [fallback_routing, h1, h2]
  · intro query h1 h2 h3
    simp [fallback_routing, h1, h2, h3]
  · intro query h1 h2 h3
    simp [fallback_routing, h1, h2, h3]

/-- Witness for C6: an invalid routing reply and a raising model call
both fall back to keyword routing, and the keyword cascade picks each
branch on a concrete query. -/
theorem route_query_fallback_spec_witness :
    route_query (.ok "banana") "show me the workflow" =
      fallback_routing "show me the workflow" ∧
    route_query (.error "timeout") "hello" = fallback_routing "hello" ∧
    fallback_routing "Check the hospital Policy" = "PolicyInterpreter" ∧
    fallback_routing "show me the Workflow" = "WorkflowPlanner" ∧
    fallback_routing "there is a Problem" = "ExceptionHandler" ∧
    fallback_routing "hello there" = "PolicyInterpreter" :=
  ⟨route_query_fallback_spec.1 _ "banana" (by decide),
   route_query_fallback_spec.2.1 "hello" "timeout",
   route_query_fallback_spec.2.2.1 _ (by decide),
   route_query_fallback_spec.2.2.2.1 _ (by decide) (by decide),
   route_query_fallback_spec.2.2.2.2.1 _ (by decide) (by decide) (by decide),
   route_query_fallback_spec.2.2.2.2.2 _ (by decide) (by decide) (by decide)⟩

/-- Bounds for the policy interpreter's confidence formula whenever every
doc score is nonnegative (retrieval guarantees scores above 0.3). -/
lemma pi_calculate_confidence_bounds (policy_docs : List RetrievedDoc)
    (interpretation : PolicyInterpretation)
    (h : ∀ d ∈ policy_docs, (0:ℚ) ≤ d.score) :
    0 ≤ pi_calculate_confidence policy_docs interpretation ∧
    pi_calculate_confidence policy_docs interpretation ≤ 19/20 := by
  unfold pi_calculate_confidence
  by_cases hnil : policy_docs = []
  · rw [if_pos hnil]; norm_num
  · rw [if_neg hnil]
    refine ⟨?_, min_le_left _ _⟩
    have hsum : 0 ≤ (policy_docs.map (fun d => d.score)).sum := by
      apply List.sum_nonneg
      intro x hx
      obtain ⟨d, hd, rfl⟩ := List.mem_map.mp hx
      exact h d hd
    have havg : 0 ≤ (policy_docs.map (fun d => d.score)).sum / (policy_docs.length : ℚ) :=
      div_nonneg hsum (by positivity)
    have hllm : 0 ≤ (if truthyStr interpretation.direct_answer then (1:ℚ)/5 else 0) := by
      split_ifs <;> norm_num
    have hsrc : 0 ≤ min ((1:ℚ)/5) ((policy_docs.length : ℚ) * (1/20)) :=
      le_min (by norm_num) (by positivity)
    refine le_min (by norm_num) ?_
    linarith

/-- Bounds for the workflow planner's confidence formula. -/
lemma wp_calculate_confidence_bounds (policy_docs : List RetrievedDoc)
    (workflow_plan : WorkflowPlan) :
    0 ≤ wp_calculate_confidence policy_docs workflow_plan ∧
    wp_calculate_confidence policy_docs workflow_plan ≤ 19/20 := by
  unfold wp_calculate_confidence
  refine ⟨?_, min_le_left _ _⟩
  have hpb : 0 ≤ min ((3:ℚ)/20) ((policy_docs.length : ℚ) * (1/20)) :=
    le_min (by norm_num) (by positivity)
  have hdb : 0 ≤ (match workflow_plan.steps with
      | some steps => if steps ≠ [] ∧ steps.length > 2 then (1:ℚ)/20 else 0
      | none => 0) := by
    rcases workflow_plan.steps with _ | steps
    · norm_num
    · dsimp only; split_ifs <;> norm_num
  refine le_min (by norm_num) ?_
  linarith

/-- Bounds for the exception handler's confidence formula; the severity
adjustment never drops below −0.1. -/
lemma eh_calculate_confidence_bounds (policy_docs : List RetrievedDoc)
    (exception_plan : ExceptionPlan) :
    0 ≤ eh_calculate_confidence policy_docs exception_plan ∧
    eh_calculate_confidence policy_docs exception_plan ≤ 19/20 := by
  unfold eh_calculate_confidence
  refine ⟨?_, min_le_left _ _⟩
  have hpb : 0 ≤ min ((3:ℚ)/20) ((policy_docs.length : ℚ) * (1/20)) :=
    le_min (by norm_num) (by positivity)
  have hdb : 0 ≤ (match exception_plan.resolution_steps with
      | some steps => if steps ≠ [] ∧ steps.length > 1 then (1:ℚ)/20 else 0
      | none => 0) := by
    rcases exception_plan.resolution_steps with _ | steps
    · norm_num
    · dsimp only; split_ifs <;> norm_num
  have hsev : -(1/10 : ℚ) ≤
      (if exception_plan.severity.getD "medium" = "low" then (1:ℚ)/20
       else if exception_plan.severity.getD "medium" = "medium" then 0
       else if exception_plan.severity.getD "medium" = "high" then -(1/20)
       else if exception_plan.severity.getD "medium" = "critical" then -(1/10)
       else 0) := by
    split_ifs <;> norm_num
  refine le_min (by norm_num) ?_
  linarith

/-- C1: for each of the three agents and all boundary inputs and states,
the confidence set by `process` lies in [0, 0.95]; the base error path
sets it to exactly 0, and the policy interpreter's no-relevant-policies
path to exactly 0.1. -/
theorem agent_confidence_bounds :
    (∀ (search : Except String (List RetrievedDoc))
        (llm : Except String PolicyInterpretation) (state : AgentState),
      0 ≤ (pi_process search llm state).confidence ∧
      (pi_process search llm state).confidence ≤ 19/20) ∧
    (∀ (search : Except String (List RetrievedDoc))
        (llm : Except String WorkflowPlan) (state : AgentState),
      0 ≤ (wp_process search llm state).confidence ∧
      (wp_process search llm state).confidence ≤ 19/20) ∧
    (∀ (search : Except String (List RetrievedDoc))
        (llm : Except String ExceptionPlan) (state : AgentState),
      0 ≤ (eh_process search llm state).confidence ∧
      (eh_process search llm state).confidence ≤ 19/20) ∧
    (∀ (e : String) (llm : Except String PolicyInterpretation) (state : AgentState),
      (pi_process (.error e) llm state).confidence = 0 ∧
      (pi_process (.error e) llm state).error = some e) ∧
    (∀ (results : List RetrievedDoc) (e : String) (state : AgentState),
      pi_retrieve_policies results ≠ [] →
      (pi_process (.ok results) (.error e) state).confidence = 0) ∧
    (∀ (results : List RetrievedDoc) (llm : Except String PolicyInterpretation)
        (state : AgentState),
      pi_retrieve_policies results = [] →
      (pi_process (.ok results) llm state).confidence = 1/10) ∧
    (∀ (e : String) (llm : Except String WorkflowPlan) (state : AgentState),
      (wp_process (.error e) llm state).confidence = 0) ∧
    (∀ (results : List RetrievedDoc) (e : String) (state : AgentState),
      (wp_process (.ok results) (.error e) state).confidence = 0) ∧
    (∀ (e : String) (llm : Except String ExceptionPlan) (state : AgentState),
      (eh_process (.error e) llm state).confidence = 0) ∧
    (∀ (results : List RetrievedDoc) (e : String) (state : AgentState),
      (eh_process (.ok results) (.error e) state).confidence = 0) := by
  refine ⟨?_, ?_, ?_, ?_, ?_, ?_, ?_, ?_, ?_, ?_⟩
  · intro search llm state
    rcases search with e | results
    · simp [pi_process, handle_error]; norm_num
    · dsimp only [pi_process]
      split_ifs with hnil
      · norm_num
      · rcases llm with e | interpretation
        · simp [handle_error]; norm_num
        · dsimp only
          apply pi_calculate_confidence_bounds
          intro d hd
          have := List.of_mem_filter hd
          have h3 : (3:ℚ)/10 < d.score := by
            simpa [pi_retrieve_policies] using of_decide_eq_true this
          linarith
  · intro search llm state
    rcases search with e | results
    · simp [wp_process, handle_error]; norm_num
    · rcases llm with e | workflow_plan
      · simp [wp_process, handle_error]; norm_num
      · exact wp_calculate_confidence_bounds _ _
  · intro search llm state
    rcases search with e | results
    · simp [eh_process, handle_error]; norm_num
    · rcases llm with e | exception_plan
      · simp [eh_process, handle_error]; norm_num
      · exact eh_calculate_confidence_bounds _ _
  · intro e llm state
    exact ⟨rfl, rfl⟩
  · intro results e state h
    simp [pi_process, handle_error, h]
  · intro results llm state h
    simp [pi_process, h]
  · intro e llm state
    rfl
  · intro results e state
    rfl
  · intro e llm state
    rfl
  · intro results e state
    rfl

/-- Witness for C1: with one retained doc and a raising LLM call the
policy interpreter reports confidence exactly 0; with no retained docs it
reports exactly 0.1. -/
theorem agent_confidence_bounds_witness :
    (pi_process (.ok [⟨"chunk", 1, "doc.txt"⟩]) (.error "llm down")
        ⟨"q", 0, none⟩).confidence = 0 ∧
    (pi_process (.ok []) (.ok ⟨some "a", [], [], [], []⟩)
        ⟨"q", 0, none⟩).confidence = 1/10 :=
  ⟨agent_confidence_bounds.2.2.2.2.1 _ "llm down" _
     (by norm_num [pi_retrieve_policies, List.filter_cons]),
   agent_confidence_bounds.2.2.2.2.2.1 _ _ _ rfl⟩

/-- Lower-casing fixes whitespace characters. -/
lemma toLower_of_pyWhitespace (c : Char) (h : pyWhitespace c = true) :
    c.toLower = c := by
  unfold pyWhitespace at h
  simp only [Bool.or_eq_true, decide_eq_true_eq] at h
  rcases h with ((((h | h) | h) | h) | h) | h <;> subst h <;> decide

/-- The split scan over all-whitespace input collects nothing. -/
lemma foldr_splitWsStep_all_ws (l : List Char)
    (h : ∀ c ∈ l, pyWhitespace c = true) :
    l.foldr splitWsStep ([], []) = ([], []) := by
  induction l with
  | nil => rfl
  | cons c rest ih =>
    simp only [List.foldr_cons]
    rw [ih (fun d hd => h d (List.mem_cons_of_mem _ hd))]
    unfold splitWsStep
    simp [h c (List.mem_cons_self c rest)]

/-- All-whitespace input splits into no words. -/
lemma splitWsChars_all_ws (l : List Char)
    (h : ∀ c ∈ l, pyWhitespace c = true) :
    splitWsChars l = [] := by
  unfold splitWsChars
  rw [foldr_splitWsStep_all_ws l h]
  rfl

/-- An empty or whitespace-only answer has an empty word set. -/
lemma wordSet_of_all_ws (answer : String)
    (h : answer.data.all pyWhitespace = true) :
    wordSet answer = [] := by
  unfold wordSet pySplitWs pyLower
  have hmap : ∀ c ∈ answer.data.map Char.toLower, pyWhitespace c = true := by
    intro c hc
    obtain ⟨d, hd, rfl⟩ := List.mem_map.mp hc
    have hdw : pyWhitespace d = true := by
      simp only [List.all_eq_true] at h
      exact h d hd
    rw [toLower_of_pyWhitespace d hdw]
    exact hdw
  show ((splitWsChars (String.mk (answer.data.map Char.toLower)).data).map _).dedup = []
  rw [show (String.mk (answer.data.map Char.toLower)).data
        = answer.data.map Char.toLower from rfl]
  rw [splitWsChars_all_ws _ hmap]
  rfl

/-- `_calculate_context_precision` raises `ZeroDivisionError` whenever
some doc is retrieved and the answer has no words. -/
lemma calculate_context_precision_none (retrieved_docs : List EvalDoc)
    (answer : String) (hdocs : retrieved_docs ≠ [])
    (hw : wordSet answer = []) :
    calculate_context_precision retrieved_docs answer = none := by
  unfold calculate_context_precision
  rw [if_neg hdocs, hw]
  rcases retrieved_docs with _ | ⟨d, ds⟩
  · exact absurd rfl hdocs
  · simp [context_precision_loop, pyDiv]

/-- C10: with a non-empty retrieved-documents list and an answer with no
whitespace-separated words (empty or whitespace-only),
`evaluate_rag_response` produces no metrics record: the unguarded
context-precision division by the answer's word count raises
`ZeroDivisionError`. -/
theorem evaluate_rag_wordless_answer (query answer : String)
    (retrieved_docs : List EvalDoc) (ground_truth : Option String)
    (hdocs : retrieved_docs ≠ [])
    (hws : answer.data.all pyWhitespace = true) :
    evaluate_rag_response query answer retrieved_docs ground_truth = none := by
  unfold evaluate_rag_response
  rw [calculate_context_precision_none retrieved_docs answer hdocs
    (wordSet_of_all_ws answer hws)]
  rfl

/-- Witness for C10: one retrieved doc and a whitespace-only answer. -/
theorem evaluate_rag_wordless_answer_witness :
    evaluate_rag_response "q" " " [⟨some "relevant text", some 1⟩] none = none :=
  evaluate_rag_wordless_answer "q" " " _ none (by simp) (by decide)

/-- If no position of the input admits a match, the substitution scan
copies the input verbatim. -/
lemma subScan_no_match (r : Reg) (repl : List Char) :
    ∀ (s : List Char) (prev : Option Char) (fuel : Nat),
      hasMatchFrom r prev s = false → subScan r repl fuel prev s = s := by
  intro s
  induction s with
  | nil =>
    intro prev fuel _
    cases fuel <;> rfl
  | cons c rest ih =>
    intro prev fuel h
    unfold hasMatchFrom at h
    simp only [Bool.or_eq_false_iff, Bool.not_eq_false'] at h
    obtain ⟨h1, h2⟩ := h
    have hempty : matchReg r (prev, c :: rest) = [] := List.isEmpty_iff.mp h1
    cases fuel with
    | zero => rfl
    | succ fuel =>
      rw [subScan, hempty]
      rw [ih (some c) fuel h2]

/-- `re.sub` leaves a match-free string unchanged. -/
lemma reSub_no_match (r : Reg) (repl text : String)
    (h : hasMatch r text = false) : reSub r repl text = text := by
  unfold reSub
  rw [subScan_no_match r repl.data text.data none text.data.length h]

/-- Folding PII substitutions over a text none of whose patterns match
leaves the text unchanged. -/
lemma foldl_reSub_pairs_id (prs : List (Reg × String)) (text : String)
    (h : ∀ pr ∈ prs, hasMatch pr.1 text = false) :
    prs.foldl (fun acc pr => reSub pr.1 pr.2 acc) text = text := by
  induction prs with
  | nil => rfl
  | cons p rest ih =>
    simp only [List.foldl_cons]
    rw [reSub_no_match p.1 p.2 text (h p (List.mem_cons_self p rest))]
    exact ih (fun pr hpr => h pr (List.mem_cons_of_mem _ hpr))

/-- Folding prohibited-content substitutions over a match-free text
leaves it unchanged. -/
lemma foldl_reSub_id (ps : List Reg) (repl text : String)
    (h : ∀ p ∈ ps, hasMatch p text = false) :
    ps.foldl (fun acc p => reSub p repl acc) text = text := by
  induction ps with
  | nil => rfl
  | cons p rest ih =>
    simp only [List.foldl_cons]
    rw [reSub_no_match p repl text (h p (List.mem_cons_self p rest))]
    exact ih (fun q hq => h q (List.mem_cons_of_mem _ hq))

/-- C9: `sanitize_output` returns unchanged any text in which no PII
pattern and no prohibited-content pattern matches — in particular any
already-sanitized text containing only `[REDACTED_*]` tokens and no raw
PII, so sanitizing is idempotent on its own PII-free output. -/
theorem sanitize_output_match_free_id (text : String)
    (h : ∀ r ∈ all_guardrail_patterns, hasMatch r text = false) :
    sanitize_output text = text := by
  unfold sanitize_output
  have hpii : ∀ pr ∈ pii_substitutions, hasMatch pr.1 text = false := by
    intro pr hpr
    exact h pr.1 (List.mem_append_left _ (List.mem_map_of_mem _ hpr))
  rw [foldl_reSub_pairs_id _ _ hpii]
  exact foldl_reSub_id _ _ _ (fun p hp => h p (List.mem_append_right _ hp))

/-- Witness for C9: a sanitized output made of redaction tokens matches
no guardrail pattern and passes through `sanitize_output` unchanged. -/
theorem sanitize_output_match_free_id_witness :
    sanitize_output "[REDACTED_SSN] and [REDACTED_EMAIL]" =
      "[REDACTED_SSN] and [REDACTED_EMAIL]" :=
  sanitize_output_match_free_id _ (by decide)
